import Mathlib

/-!
Verification of the cooperative co-evolutionary feature-selection engine (CCEAs).

The Python source is shallowly embedded: individuals are `List Nat` bit vectors,
subpopulations are lists of individuals, randomness is an explicit oracle
(a choice function, or an offset into the process-global pseudo-random stream),
and fallible construction/loading is `Bool`/`Except`.
-/

namespace CCEAs

/-! Collaboration layer (src/cooperation/random.py).

`SingleRandomCollaboration.get_collaborators` builds
`collaborators = [random.choices(subpop, k=1)[0] for subpop in subpops]`
and then overwrites slot `subpop_idx` with `subpops[subpop_idx][indiv_idx].copy()`.
The random draw for subpopulation `k` is abstracted as `pick k`. -/

def get_collaborators (pick : Nat → Nat) (subpop_idx indiv_idx : Nat)
    (subpops : List (List (List Nat))) : List (List Nat) :=
  ((subpops.enum.map (fun q => q.2.getD (pick q.1) [])).set subpop_idx
    ((subpops.getD subpop_idx []).getD indiv_idx []))

/-- Modelled from the spec: `Collaboration.build_context_vector`
(cooperation/collaboration.py) is not among the available sources; the spec
states that it concatenates the `n_subcomps` representative vectors in
decomposition order into one full-length vector. -/
def build_context_vector (collaborators : List (List Nat)) : List Nat :=
  collaborators.flatten

/-- Model of the global random stream: `random.choices` draws from the process-global `random` stream that
`SingleRandomCollaboration.__init__` seeds with `random.seed(seed)`.  The
stream is a fixed sequence `stream : Nat → Nat` determined by the seed, and a
caller's position in it is an offset `p`; one draw is consumed per
subpopulation, and a draw over a population of size `n` selects index
`stream p % n`. -/
def get_collaborators_global (stream : Nat → Nat) (p : Nat)
    (subpop_idx indiv_idx : Nat) (subpops : List (List (List Nat))) :
    List (List Nat) × Nat :=
  (get_collaborators (fun k => stream (p + k) % (subpops.getD k []).length)
      subpop_idx indiv_idx subpops,
   p + subpops.length)

/-! Random binary initialization (src/initialization/random.py).

`RandomBinaryInitialization.build_subpopulations` iterates
`zip(subcomp_sizes, subpop_sizes)` and draws
`np.random.choice([0, 1], size=(subpop_size, subcomp_size))`; the draw for
gene `(i, r, c)` is abstracted as `rand i r c : Fin 2`, an index into the
choice list `[0, 1]`. -/

def build_subpopulations (rand : Nat → Nat → Nat → Fin 2)
    (subcomp_sizes subpop_sizes : List Nat) : List (List (List Nat)) :=
  (subcomp_sizes.zip subpop_sizes).enum.map (fun q =>
    (List.range q.2.2).map (fun r =>
      (List.range q.2.1).map (fun c => ((rand q.1 r c : Nat)))))

/-- Embedding of `RandomBinaryInitialization.evaluate_individuals`: for subpopulation `i`
and individual `j`, get collaborators from the collaborator object (the random
draws of that call are abstracted as `pickO i j : Nat → Nat`), build the
context vector, evaluate it, and collect per-subpopulation context-vector
stacks and fitness lists. -/
def evaluate_individuals (pickO : Nat → Nat → Nat → Nat)
    (fitness_function : List Nat → Int) (subpops : List (List (List Nat))) :
    List (List (List Nat)) × List (List Int) :=
  let per := subpops.enum.map (fun q =>
    (List.range q.2.length).map (fun j =>
      let context_vector :=
        build_context_vector (get_collaborators (pickO q.1 j) q.1 j subpops)
      (context_vector, fitness_function context_vector)))
  (per.map (fun l => l.map Prod.fst), per.map (fun l => l.map Prod.snd))

/-! CCEA engine state (src/coevolution/ccea.py). -/

/-- One entry of `current_best`: the best context vector of a subpopulation and
its fitness (the two fields `_get_global_best` reads). -/
structure BestEntry where
  context_vector : List Int
  fitness : Int
deriving DecidableEq

/-- The engine fields relevant to global-best extraction: `current_best` plus
the separately stored `best_context_vector` / `best_fitness` fields and the
convergence curve. -/
structure CCEAState where
  current_best : List BestEntry
  best_context_vector : List Int
  best_fitness : Int
  convergence_curve : List Int

/-- Embedding of `np.argmax`: index of the first occurrence of the maximum value.
Loop state: `bi` best index so far, `bv` its value, `i` index of the head of
the remaining list; a later value replaces the best only when strictly
greater. -/
def argmaxAux (bi : Nat) (bv : Int) (i : Nat) : List Int → Nat
  | [] => bi
  | v :: vs => if bv < v then argmaxAux i v (i + 1) vs else argmaxAux bi bv (i + 1) vs

def np_argmax : List Int → Nat
  | [] => 0
  | v :: vs => argmaxAux 0 v 1 vs

/-- Embedding of `CCEA._get_global_best`:
`best_idx = np.argmax([best["fitness"] for best in current_best.values()])`,
then return `(current_best[best_idx]["context_vector"].copy(),
current_best[best_idx]["fitness"])`.  The dict has keys `0..n_subcomps-1` in
insertion order, so positional indexing models it. -/
def CCEA_get_global_best (st : CCEAState) : List Int × Int :=
  let best_idx := np_argmax (st.current_best.map (fun b => b.fitness))
  let best_fitness := (st.current_best.getD best_idx ⟨[], 0⟩).fitness
  let best_cv := (st.current_best.getD best_idx ⟨[], 0⟩).context_vector
  (best_cv, best_fitness)

/-! Heap model of `_get_global_best`, for the copy-vs-alias behaviour.

Numpy arrays are mutable references; `current_best[best_idx]["context_vector"]
.copy()` allocates a fresh array.  A small store of arrays makes the aliasing
observable. -/

structure Store where
  arrays : Nat → List Int
  next : Nat

def Store.write (s : Store) (r : Nat) (v : List Int) : Store :=
  ⟨fun k => if k = r then v else s.arrays k, s.next⟩

def Store.alloc (s : Store) (v : List Int) : Store × Nat :=
  (⟨fun k => if k = s.next then v else s.arrays k, s.next + 1⟩, s.next)

/-- The engine state with context vectors held by reference: each
`current_best` entry is (reference to its context-vector array, fitness). -/
structure HeapCCEAState where
  store : Store
  current_best : List (Nat × Int)

/-- Embedding of `CCEA._get_global_best` over the heap model: pick `best_idx` by argmax
over the fitness values, read the best fitness, `.copy()` the best context
vector (a fresh allocation), and return the copy without touching
`current_best`. -/
def CCEA_get_global_best_heap (st : HeapCCEAState) :
    (Nat × Int) × HeapCCEAState :=
  let best_idx := np_argmax (st.current_best.map Prod.snd)
  let best_fitness := (st.current_best.getD best_idx (0, 0)).2
  let best_ref := (st.current_best.getD best_idx (0, 0)).1
  let alloc_out := st.store.alloc (st.store.arrays best_ref)
  ((alloc_out.2, best_fitness), ⟨alloc_out.1, st.current_best⟩)

/-! Configuration checks in `CCEA.__init__` (src/coevolution/ccea.py).

`if self.n_subcomps:` and `if self.subcomp_sizes:` are Python truthiness
tests: `None` and `0` (resp. `None` and `[]`) are falsy and skip the inner
equality check; the inner check raises `AssertionError` on a length
mismatch. -/

def truthy_nat : Option Nat → Bool
  | none => false
  | some n => n != 0

def truthy_list : Option (List Nat) → Bool
  | none => false
  | some l => !l.isEmpty

/-- Whether `CCEA.__init__` raises an `AssertionError` for the given
caller-supplied `n_subcomps` / `subcomp_sizes` against `subpop_sizes`. -/
def ccea_init_raises (n_subcomps : Option Nat) (subcomp_sizes : Option (List Nat))
    (subpop_sizes : List Nat) : Bool :=
  (truthy_nat n_subcomps && (n_subcomps.getD 0 != subpop_sizes.length)) ||
  (truthy_list subcomp_sizes && ((subcomp_sizes.getD []).length != subpop_sizes.length))

/-! Dataset loading (src/utils/datasets.py). -/

def data_folder : String := "./datasets/"

/-- The `DataLoader.datasets` table: dataset name to CSV path. -/
def datasets : List (String × String) :=
  [("11_tumor", data_folder ++ "11_tumor.csv"),
   ("9_tumor", data_folder ++ "9_tumor.csv"),
   ("brain_tumor_1", data_folder ++ "brain_tumor_1.csv"),
   ("brain_tumor_2", data_folder ++ "brain_tumor_2.csv"),
   ("cbd", data_folder ++ "cbd.csv"),
   ("dermatology", data_folder ++ "dermatology.csv"),
   ("divorce", data_folder ++ "divorce.csv"),
   ("dlbcl", data_folder ++ "dlbcl.csv"),
   ("gfe", data_folder ++ "gfe.csv"),
   ("hapt", data_folder ++ "hapt.csv"),
   ("har", data_folder ++ "har.csv"),
   ("isolet5", data_folder ++ "isolet5.csv"),
   ("leukemia_1", data_folder ++ "leukemia_1.csv"),
   ("leukemia_2", data_folder ++ "leukemia_2.csv"),
   ("leukemia_3", data_folder ++ "leukemia_3.csv"),
   ("lungc", data_folder ++ "lungc.csv"),
   ("madelon_valid", data_folder ++ "madelon_valid.csv"),
   ("mfd", data_folder ++ "mfd.csv"),
   ("orh", data_folder ++ "orh.csv"),
   ("prostate_tumor_1", data_folder ++ "prostate_tumor_1.csv"),
   ("qsar_toxicity", data_folder ++ "qsar_oral_toxicity.csv"),
   ("shd", data_folder ++ "shd.csv"),
   ("uji_indoor", data_folder ++ "uji_indoor_loc.csv"),
   ("wdbc", data_folder ++ "wdbc.csv")]

/-- Embedding of `DataLoader.load`: look the dataset name up in the table; an unknown name
raises `AssertionError` (before any file is read), a known name proceeds to
read the CSV at the stored path. -/
def DataLoader_load (dataset : String) : Except String String :=
  match datasets.lookup dataset with
  | some path => Except.ok path
  | none => Except.error ("The dataset is not available.")

/-! Helper lemmas. -/

lemma length_get_collaborators (pick : Nat → Nat) (i j : Nat)
    (sp : List (List (List Nat))) :
    (get_collaborators pick i j sp).length = sp.length := by
  simp [get_collaborators]

lemma getD_get_collaborators (pick : Nat → Nat) (i j k : Nat)
    (sp : List (List (List Nat))) (hk : k < sp.length) :
    (get_collaborators pick i j sp).getD k []
      = if i = k then (sp.getD i []).getD j []
        else (sp.getD k []).getD (pick k) [] := by
  have hk' : k < (get_collaborators pick i j sp).length := by
    rw [length_get_collaborators]; exact hk
  rw [List.getD_eq_getElem _ _ hk']
  unfold get_collaborators
  rw [List.getElem_set]
  by_cases h : i = k
  · simp [h]
  · rw [if_neg h, if_neg h]
    have hk2 : k < sp.enum.length := by simpa [List.enum_length] using hk
    rw [List.getElem_map, List.getElem_enum, List.getD_eq_getElem sp [] hk]

lemma getD_mem_of_lt (l : List (List Nat)) (m : Nat) (hm : m < l.length) :
    l.getD m [] ∈ l := by
  rw [List.getD_eq_getElem _ _ hm]
  exact List.getElem_mem hm

lemma getD_get_collaborators_mem (pick : Nat → Nat) (i j k : Nat)
    (sp : List (List (List Nat))) (hk : k < sp.length)
    (hpick : pick k < (sp.getD k []).length)
    (hj : j < (sp.getD i []).length) :
    (get_collaborators pick i j sp).getD k [] ∈ sp.getD k [] := by
  rw [getD_get_collaborators _ _ _ _ _ hk]
  by_cases h : i = k
  · rw [if_pos h]
    subst h
    exact getD_mem_of_lt _ _ hj
  · rw [if_neg h]
    exact getD_mem_of_lt _ _ hpick

lemma map_length_eq_of_getD (l : List (List Nat)) (sizes : List Nat)
    (hlen : l.length = sizes.length)
    (h : ∀ k, k < l.length → (l.getD k []).length = sizes.getD k 0) :
    l.map List.length = sizes := by
  apply List.ext_get (by simpa using hlen)
  intro n h1 h2
  simp only [List.get_eq_getElem, List.getElem_map]
  have hn : n < l.length := by simpa using h1
  have hs : n < sizes.length := h2
  have := h n hn
  rw [List.getD_eq_getElem _ _ hn, List.getD_eq_getElem _ _ hs] at this
  exact this

/-- C1: for every subpopulation index `i`, valid individual index `j`, and
list of non-empty subpopulations (the `pick` draws are in range), the context
vector assembled from `SingleRandomCollaboration.get_collaborators` has length
`n_features = sizes.sum`, is the concatenation of exactly one representative
per subpopulation in decomposition order (no overlap or gap: it is literally
the flattening of one member of each subpopulation), and its subcomponent-`i`
slot equals individual `j` of subpopulation `i` itself. -/
theorem context_vector_assembly (pick : Nat → Nat) (i j : Nat)
    (sp : List (List (List Nat))) (sizes : List Nat)
    (hsz : sp.length = sizes.length)
    (hind : ∀ k, k < sp.length → ∀ ind ∈ sp.getD k [], ind.length = sizes.getD k 0)
    (hpick : ∀ k, k < sp.length → pick k < (sp.getD k []).length)
    (hi : i < sp.length) (hj : j < (sp.getD i []).length) :
    (build_context_vector (get_collaborators pick i j sp)).length = sizes.sum ∧
    (∃ reps : List (List Nat),
      build_context_vector (get_collaborators pick i j sp) = reps.flatten ∧
      reps.length = sp.length ∧
      ∀ k, k < reps.length → reps.getD k [] ∈ sp.getD k []) ∧
    ((build_context_vector (get_collaborators pick i j sp)).drop
        ((sizes.take i).sum)).take (sizes.getD i 0)
      = (sp.getD i []).getD j [] := by
  set colls := get_collaborators pick i j sp with hcolls
  have hclen : colls.length = sp.length := length_get_collaborators pick i j sp
  have hmem : ∀ k, k < colls.length → colls.getD k [] ∈ sp.getD k [] := by
    intro k hk
    rw [hclen] at hk
    exact getD_get_collaborators_mem pick i j k sp hk (hpick k hk) hj
  have hcollen : ∀ k, k < colls.length → (colls.getD k []).length = sizes.getD k 0 := by
    intro k hk
    have hk' : k < sp.length := hclen ▸ hk
    exact hind k hk' _ (hmem k hk)
  have hmaplen : colls.map List.length = sizes :=
    map_length_eq_of_getD colls sizes (hclen.trans hsz) hcollen
  refine ⟨?_, ⟨colls, rfl, hclen, hmem⟩, ?_⟩
  · rw [build_context_vector, List.length_flatten, hmaplen]
  · -- the subcomponent-i slot
    have hdrop : (build_context_vector colls).drop ((sizes.take i).sum)
        = (colls.drop i).flatten := by
      rw [build_context_vector, ← hmaplen, List.drop_sum_flatten]
    rw [hdrop]
    have hicol : i < colls.length := hclen ▸ hi
    rw [List.drop_eq_getElem_cons hicol]
    have hgi : colls[i] = (sp.getD i []).getD j [] := by
      have := getD_get_collaborators pick i j i sp hi
      rw [if_pos rfl] at this
      rw [← List.getD_eq_getElem colls [] hicol]
      exact this
    have hgil : (sizes.getD i 0) = colls[i].length := by
      have := hcollen i hicol
      rw [List.getD_eq_getElem colls [] hicol] at this
      exact this.symm
    rw [List.flatten_cons, hgil, List.take_left, hgi]

/-- Witness for C1 at subpopulations `[[[1,0],[0,1]],[[1,1,1]]]`,
sizes `[2,3]`, `i = 0`, `j = 1`, all draws `0`. -/
theorem context_vector_assembly_witness :
    (([[[1,0],[0,1]],[[1,1,1]]] : List (List (List Nat))).length
      = ([2,3] : List Nat).length) ∧
    (∀ k, k < ([[[1,0],[0,1]],[[1,1,1]]] : List (List (List Nat))).length →
      ∀ ind ∈ ([[[1,0],[0,1]],[[1,1,1]]] : List (List (List Nat))).getD k [],
        ind.length = ([2,3] : List Nat).getD k 0) ∧
    (∀ k, k < ([[[1,0],[0,1]],[[1,1,1]]] : List (List (List Nat))).length →
      (fun _ => 0) k
        < (([[[1,0],[0,1]],[[1,1,1]]] : List (List (List Nat))).getD k []).length) ∧
    (0 < ([[[1,0],[0,1]],[[1,1,1]]] : List (List (List Nat))).length) ∧
    (1 < (([[[1,0],[0,1]],[[1,1,1]]] : List (List (List Nat))).getD 0 []).length) ∧
    ((build_context_vector
        (get_collaborators (fun _ => 0) 0 1 [[[1,0],[0,1]],[[1,1,1]]])).length
      = ([2,3] : List Nat).sum ∧
    (∃ reps : List (List Nat),
      build_context_vector
          (get_collaborators (fun _ => 0) 0 1 [[[1,0],[0,1]],[[1,1,1]]])
        = reps.flatten ∧
      reps.length = ([[[1,0],[0,1]],[[1,1,1]]] : List (List (List Nat))).length ∧
      ∀ k, k < reps.length →
        reps.getD k [] ∈ ([[[1,0],[0,1]],[[1,1,1]]] : List (List (List Nat))).getD k []) ∧
    ((build_context_vector
        (get_collaborators (fun _ => 0) 0 1 [[[1,0],[0,1]],[[1,1,1]]])).drop
          ((([2,3] : List Nat).take 0).sum)).take (([2,3] : List Nat).getD 0 0)
      = (([[[1,0],[0,1]],[[1,1,1]]] : List (List (List Nat))).getD 0 []).getD 1 []) :=
  ⟨by decide, by decide, by decide, by decide, by decide,
   context_vector_assembly (fun _ => 0) 0 1 [[[1,0],[0,1]],[[1,1,1]]] [2,3]
     (by decide) (by decide) (by decide) (by decide) (by decide)⟩

lemma argmaxAux_spec (vs : List Int) : ∀ (bi i : Nat) (bv : Int),
    (argmaxAux bi bv i vs = bi ∧ ∀ k, k < vs.length → vs.getD k 0 ≤ bv) ∨
    (∃ k, k < vs.length ∧ argmaxAux bi bv i vs = i + k ∧ bv < vs.getD k 0 ∧
      (∀ m, m < vs.length → vs.getD m 0 ≤ vs.getD k 0) ∧
      (∀ m, m < k → vs.getD m 0 < vs.getD k 0)) := by
  induction vs with
  | nil =>
      intro bi i bv
      left
      exact ⟨rfl, fun k hk => absurd hk (by simp)⟩
  | cons v vs ih =>
      intro bi i bv
      by_cases hv : bv < v
      · have hred : argmaxAux bi bv i (v :: vs) = argmaxAux i v (i + 1) vs := by
          simp [argmaxAux, hv]
        rcases ih i (i + 1) v with ⟨h1, h2⟩ | ⟨k, hk, h1, h2, h3, h4⟩
        · right
          refine ⟨0, by simp, ?_, ?_, ?_, ?_⟩
          · rw [hred, h1]; omega
          · simpa using hv
          · intro m hm
            cases m with
            | zero => simp
            | succ m =>
                have hm' : m < vs.length := by simpa using hm
                simpa using h2 m hm'
          · intro m hm; omega
        · right
          refine ⟨k + 1, by simpa using hk, ?_, ?_, ?_, ?_⟩
          · rw [hred, h1]; omega
          · have hlt : bv < vs.getD k 0 := lt_trans hv h2
            simpa using hlt
          · intro m hm
            cases m with
            | zero => simpa using le_of_lt h2
            | succ m =>
                have hm' : m < vs.length := by simpa using hm
                simpa using h3 m hm'
          · intro m hm
            cases m with
            | zero => simpa using h2
            | succ m =>
                have hm' : m < k := by omega
                simpa using h4 m hm'
      · have hred : argmaxAux bi bv i (v :: vs) = argmaxAux bi bv (i + 1) vs := by
          simp [argmaxAux, hv]
        have hvbv : v ≤ bv := le_of_not_lt hv
        rcases ih bi (i + 1) bv with ⟨h1, h2⟩ | ⟨k, hk, h1, h2, h3, h4⟩
        · left
          refine ⟨by rw [hred, h1], ?_⟩
          intro m hm
          cases m with
          | zero => simpa using hvbv
          | succ m =>
              have hm' : m < vs.length := by simpa using hm
              simpa using h2 m hm'
        · right
          refine ⟨k + 1, by simpa using hk, ?_, ?_, ?_, ?_⟩
          · rw [hred, h1]; omega
          · simpa using h2
          · intro m hm
            cases m with
            | zero => simpa using le_of_lt (lt_of_le_of_lt hvbv h2)
            | succ m =>
                have hm' : m < vs.length := by simpa using hm
                simpa using h3 m hm'
          · intro m hm
            cases m with
            | zero => simpa using lt_of_le_of_lt hvbv h2
            | succ m =>
                have hm' : m < k := by omega
                simpa using h4 m hm'

lemma np_argmax_spec (l : List Int) (hl : l ≠ []) :
    np_argmax l < l.length ∧
    (∀ m, m < l.length → l.getD m 0 ≤ l.getD (np_argmax l) 0) ∧
    (∀ m, m < np_argmax l → l.getD m 0 < l.getD (np_argmax l) 0) := by
  cases l with
  | nil => exact absurd rfl hl
  | cons v vs =>
      have hnp : np_argmax (v :: vs) = argmaxAux 0 v 1 vs := rfl
      rcases argmaxAux_spec vs 0 1 v with ⟨h1, h2⟩ | ⟨k, hk, h1, h2, h3, h4⟩
      · rw [hnp, h1]
        refine ⟨by simp, ?_, ?_⟩
        · intro m hm
          cases m with
          | zero => simp
          | succ m =>
              have hm' : m < vs.length := by simpa using hm
              simpa using h2 m hm'
        · intro m hm; omega
      · rw [hnp, h1]
        have hgd : (v :: vs).getD (1 + k) 0 = vs.getD k 0 := by
          have h1k : 1 + k = k + 1 := by omega
          rw [h1k, List.getD_cons_succ]
        refine ⟨by simp; omega, ?_, ?_⟩
        · intro m hm
          rw [hgd]
          cases m with
          | zero => simpa using le_of_lt h2
          | succ m =>
              have hm' : m < vs.length := by simpa using hm
              simpa using h3 m hm'
        · intro m hm
          rw [hgd]
          cases m with
          | zero => simpa using h2
          | succ m =>
              have hm' : m < k := by omega
              simpa using h4 m hm'

lemma getD_map_fitness (l : List BestEntry) (m : Nat) (hm : m < l.length) :
    (l.map (fun b => b.fitness)).getD m 0 = (l.getD m ⟨[], 0⟩).fitness := by
  have hm' : m < (l.map (fun b => b.fitness)).length := by simpa using hm
  rw [List.getD_eq_getElem _ _ hm', List.getD_eq_getElem _ _ hm, List.getElem_map]

/-- C2: for every non-empty `current_best` (a dict with keys
`0..n_subcomps-1`, modelled positionally), `_get_global_best` returns the
context vector and fitness of the entry with maximal fitness; on ties the
lowest subpopulation index wins (all earlier entries are strictly smaller);
and the result is a function of `current_best` alone — engine states agreeing
on `current_best` (whatever their cached `best_context_vector` /
`best_fitness` fields) give the same answer, so it is recomputed, not read
from a cache. -/
theorem global_best_argmax (st : CCEAState) (h : st.current_best ≠ []) :
    np_argmax (st.current_best.map (fun b => b.fitness)) < st.current_best.length ∧
    CCEA_get_global_best st =
      ((st.current_best.getD
          (np_argmax (st.current_best.map (fun b => b.fitness))) ⟨[], 0⟩).context_vector,
       (st.current_best.getD
          (np_argmax (st.current_best.map (fun b => b.fitness))) ⟨[], 0⟩).fitness) ∧
    (∀ m, m < st.current_best.length →
      (st.current_best.getD m ⟨[], 0⟩).fitness
        ≤ (st.current_best.getD
            (np_argmax (st.current_best.map (fun b => b.fitness))) ⟨[], 0⟩).fitness) ∧
    (∀ m, m < np_argmax (st.current_best.map (fun b => b.fitness)) →
      (st.current_best.getD m ⟨[], 0⟩).fitness
        < (st.current_best.getD
            (np_argmax (st.current_best.map (fun b => b.fitness))) ⟨[], 0⟩).fitness) ∧
    (∀ st' : CCEAState, st'.current_best = st.current_best →
      CCEA_get_global_best st' = CCEA_get_global_best st) := by
  have hne : st.current_best.map (fun b => b.fitness) ≠ [] := by
    intro hnil
    exact h (List.map_eq_nil_iff.mp hnil)
  obtain ⟨ha, hmax, hfirst⟩ := np_argmax_spec (st.current_best.map (fun b => b.fitness)) hne
  have halen : np_argmax (st.current_best.map (fun b => b.fitness))
      < st.current_best.length := by simpa using ha
  refine ⟨halen, rfl, ?_, ?_, ?_⟩
  · intro m hm
    have hm' : m < (st.current_best.map (fun b => b.fitness)).length := by simpa using hm
    have := hmax m hm'
    rwa [getD_map_fitness _ _ hm, getD_map_fitness _ _ halen] at this
  · intro m hm
    have hmlt : m < st.current_best.length := lt_trans hm halen
    have := hfirst m hm
    rwa [getD_map_fitness _ _ hmlt, getD_map_fitness _ _ halen] at this
  · intro st' h'
    simp only [CCEA_get_global_best, h']

/-- Witness for C2 at `current_best = [(cv [1,0], 5), (cv [0,1], 7), (cv [1,1], 7)]`:
the maximum fitness 7 is first reached at index 1. -/
theorem global_best_argmax_witness :
    ((⟨[⟨[1,0],5⟩, ⟨[0,1],7⟩, ⟨[1,1],7⟩], [], 0, []⟩ : CCEAState).current_best ≠ []) ∧
    (np_argmax ((⟨[⟨[1,0],5⟩, ⟨[0,1],7⟩, ⟨[1,1],7⟩], [], 0, []⟩ : CCEAState).current_best.map
        (fun b => b.fitness))
      < (⟨[⟨[1,0],5⟩, ⟨[0,1],7⟩, ⟨[1,1],7⟩], [], 0, []⟩ : CCEAState).current_best.length ∧
    CCEA_get_global_best (⟨[⟨[1,0],5⟩, ⟨[0,1],7⟩, ⟨[1,1],7⟩], [], 0, []⟩ : CCEAState) =
      (((⟨[⟨[1,0],5⟩, ⟨[0,1],7⟩, ⟨[1,1],7⟩], [], 0, []⟩ : CCEAState).current_best.getD
          (np_argmax ((⟨[⟨[1,0],5⟩, ⟨[0,1],7⟩, ⟨[1,1],7⟩], [], 0, []⟩ : CCEAState).current_best.map
            (fun b => b.fitness))) ⟨[], 0⟩).context_vector,
       (((⟨[⟨[1,0],5⟩, ⟨[0,1],7⟩, ⟨[1,1],7⟩], [], 0, []⟩ : CCEAState)).current_best.getD
          (np_argmax ((⟨[⟨[1,0],5⟩, ⟨[0,1],7⟩, ⟨[1,1],7⟩], [], 0, []⟩ : CCEAState).current_best.map
            (fun b => b.fitness))) ⟨[], 0⟩).fitness) ∧
    (∀ m, m < (⟨[⟨[1,0],5⟩, ⟨[0,1],7⟩, ⟨[1,1],7⟩], [], 0, []⟩ : CCEAState).current_best.length →
      ((⟨[⟨[1,0],5⟩, ⟨[0,1],7⟩, ⟨[1,1],7⟩], [], 0, []⟩ : CCEAState).current_best.getD m ⟨[], 0⟩).fitness
        ≤ ((⟨[⟨[1,0],5⟩, ⟨[0,1],7⟩, ⟨[1,1],7⟩], [], 0, []⟩ : CCEAState).current_best.getD
            (np_argmax ((⟨[⟨[1,0],5⟩, ⟨[0,1],7⟩, ⟨[1,1],7⟩], [], 0, []⟩ : CCEAState).current_best.map
              (fun b => b.fitness))) ⟨[], 0⟩).fitness) ∧
    (∀ m, m < np_argmax ((⟨[⟨[1,0],5⟩, ⟨[0,1],7⟩, ⟨[1,1],7⟩], [], 0, []⟩ : CCEAState).current_best.map
        (fun b => b.fitness)) →
      ((⟨[⟨[1,0],5⟩, ⟨[0,1],7⟩, ⟨[1,1],7⟩], [], 0, []⟩ : CCEAState).current_best.getD m ⟨[], 0⟩).fitness
        < ((⟨[⟨[1,0],5⟩, ⟨[0,1],7⟩, ⟨[1,1],7⟩], [], 0, []⟩ : CCEAState).current_best.getD
            (np_argmax ((⟨[⟨[1,0],5⟩, ⟨[0,1],7⟩, ⟨[1,1],7⟩], [], 0, []⟩ : CCEAState).current_best.map
              (fun b => b.fitness))) ⟨[], 0⟩).fitness) ∧
    (∀ st' : CCEAState,
      st'.current_best = (⟨[⟨[1,0],5⟩, ⟨[0,1],7⟩, ⟨[1,1],7⟩], [], 0, []⟩ : CCEAState).current_best →
      CCEA_get_global_best st'
        = CCEA_get_global_best (⟨[⟨[1,0],5⟩, ⟨[0,1],7⟩, ⟨[1,1],7⟩], [], 0, []⟩ : CCEAState))) :=
  ⟨by decide,
   global_best_argmax (⟨[⟨[1,0],5⟩, ⟨[0,1],7⟩, ⟨[1,1],7⟩], [], 0, []⟩ : CCEAState) (by decide)⟩

/-- Counterexample to C3 as stated: the caller supplies `n_subcomps = 0`,
which differs from `len(subpop_sizes) = 1`, yet `CCEA.__init__` raises no
configuration error because `if self.n_subcomps:` is falsy for `0`. -/
theorem config_mismatch_cex :
    (0 : Nat) ≠ ([5] : List Nat).length ∧
    ccea_init_raises (some 0) none [5] = false := by decide

/-- C3 (amended): `CCEA.__init__` raises a configuration error exactly when a
caller-supplied truthy `n_subcomps` (non-`None`, non-zero) differs from
`len(subpop_sizes)`, or a caller-supplied truthy `subcomp_sizes` (non-`None`,
non-empty) has length different from `len(subpop_sizes)`; when the supplied
truthy values agree — and always when a supplied value is falsy — no error is
raised. -/
theorem config_mismatch_check (n : Option Nat) (cs : Option (List Nat))
    (sps : List Nat) :
    ccea_init_raises n cs sps = true ↔
      ((∃ k, n = some k ∧ k ≠ 0 ∧ k ≠ sps.length) ∨
       (∃ l, cs = some l ∧ l ≠ [] ∧ l.length ≠ sps.length)) := by
  cases n <;> cases cs <;>
    simp [ccea_init_raises, truthy_nat, truthy_list, List.isEmpty_iff,
      Bool.or_eq_true, Bool.and_eq_true, bne_iff_ne, and_assoc]

/-- C9: the consistency checks in `CCEA.__init__` are guarded by Python
truthiness, so falsy caller-supplied values (`n_subcomps` of `0` or `None`,
`subcomp_sizes` of `[]` or `None`) skip validation entirely and construction
succeeds for every `subpop_sizes`; the mismatch error fires only for truthy
inconsistent values. -/
theorem truthiness_guard (n : Option Nat) (cs : Option (List Nat))
    (sps : List Nat) :
    ccea_init_raises (some 0) none sps = false ∧
    ccea_init_raises none (some []) sps = false ∧
    ccea_init_raises (some 0) (some []) sps = false ∧
    ccea_init_raises none none sps = false ∧
    (ccea_init_raises n cs sps = true ↔
      ((truthy_nat n = true ∧ n.getD 0 ≠ sps.length) ∨
       (truthy_list cs = true ∧ (cs.getD []).length ≠ sps.length))) := by
  refine ⟨by simp [ccea_init_raises, truthy_nat, truthy_list],
          by simp [ccea_init_raises, truthy_nat, truthy_list],
          by simp [ccea_init_raises, truthy_nat, truthy_list],
          by simp [ccea_init_raises, truthy_nat, truthy_list], ?_⟩
  simp [ccea_init_raises, Bool.or_eq_true, Bool.and_eq_true, bne_iff_ne]

lemma getD_map_range {α : Type} (f : Nat → α) (n j : Nat) (hj : j < n) (d : α) :
    ((List.range n).map f).getD j d = f j := by
  have hj' : j < ((List.range n).map f).length := by simpa using hj
  rw [List.getD_eq_getElem _ _ hj', List.getElem_map, List.getElem_range]

lemma getD_build_subpopulations (rand : Nat → Nat → Nat → Fin 2)
    (cs ps : List Nat) (h : cs.length = ps.length) (i : Nat) (hi : i < ps.length) :
    (build_subpopulations rand cs ps).getD i []
      = (List.range (ps.getD i 0)).map (fun r =>
          (List.range (cs.getD i 0)).map (fun c => ((rand i r c : Nat)))) := by
  have hzl : (cs.zip ps).length = ps.length := by
    rw [List.length_zip, h]; exact Nat.min_self _
  have hi' : i < (build_subpopulations rand cs ps).length := by
    simpa [build_subpopulations, hzl] using hi
  have hcs : i < cs.length := by rw [h]; exact hi
  rw [List.getD_eq_getElem _ _ hi']
  unfold build_subpopulations
  rw [List.getElem_map, List.getElem_enum, List.getElem_zip,
    List.getD_eq_getElem cs 0 hcs, List.getD_eq_getElem ps 0 hi]

/-- C4: for equally long `subcomp_sizes` and `subpop_sizes`,
`RandomBinaryInitialization.build_subpopulations` produces exactly
`n_subcomps` subpopulations, and subpopulation `i` is a matrix of shape
`(subpop_sizes[i], subcomp_sizes[i])` whose every entry is 0 or 1. -/
theorem build_subpopulations_shape (rand : Nat → Nat → Nat → Fin 2)
    (cs ps : List Nat) (h : cs.length = ps.length) :
    (build_subpopulations rand cs ps).length = ps.length ∧
    (∀ i, i < ps.length →
      ((build_subpopulations rand cs ps).getD i []).length = ps.getD i 0 ∧
      (∀ row ∈ (build_subpopulations rand cs ps).getD i [],
        row.length = cs.getD i 0 ∧ ∀ x ∈ row, x = 0 ∨ x = 1)) := by
  have hzl : (cs.zip ps).length = ps.length := by
    rw [List.length_zip, h]; exact Nat.min_self _
  refine ⟨by simp [build_subpopulations, hzl], ?_⟩
  intro i hi
  rw [getD_build_subpopulations rand cs ps h i hi]
  refine ⟨by simp, ?_⟩
  intro row hrow
  rcases List.mem_map.1 hrow with ⟨r, _, rfl⟩
  refine ⟨by simp, ?_⟩
  intro x hx
  rcases List.mem_map.1 hx with ⟨c, _, rfl⟩
  have hb : (rand i r c : Nat) < 2 := (rand i r c).isLt
  omega

/-- Witness for C4 in the spec's concrete scenario `subpop_sizes = [2,2]`,
`subcomp_sizes = [3,3]` (all draws `1`): two subpopulations of shape (2,3)
with entries in 0/1. -/
theorem build_subpopulations_shape_witness :
    (([3,3] : List Nat).length = ([2,2] : List Nat).length) ∧
    ((build_subpopulations (fun _ _ _ => 1) [3,3] [2,2]).length
      = ([2,2] : List Nat).length ∧
    (∀ i, i < ([2,2] : List Nat).length →
      ((build_subpopulations (fun _ _ _ => 1) [3,3] [2,2]).getD i []).length
        = ([2,2] : List Nat).getD i 0 ∧
      (∀ row ∈ (build_subpopulations (fun _ _ _ => 1) [3,3] [2,2]).getD i [],
        row.length = ([3,3] : List Nat).getD i 0 ∧ ∀ x ∈ row, x = 0 ∨ x = 1))) :=
  ⟨by decide, build_subpopulations_shape (fun _ _ _ => 1) [3,3] [2,2] (by decide)⟩

lemma get_collaborators_map_length (pick : Nat → Nat) (i j : Nat)
    (sp : List (List (List Nat))) (sizes : List Nat)
    (hsz : sp.length = sizes.length)
    (hind : ∀ k, k < sp.length → ∀ ind ∈ sp.getD k [], ind.length = sizes.getD k 0)
    (hpick : ∀ k, k < sp.length → pick k < (sp.getD k []).length)
    (hj : j < (sp.getD i []).length) :
    (get_collaborators pick i j sp).map List.length = sizes := by
  have hclen := length_get_collaborators pick i j sp
  apply map_length_eq_of_getD _ _ (hclen.trans hsz)
  intro k hk
  rw [hclen] at hk
  exact hind k hk _ (getD_get_collaborators_mem pick i j k sp hk (hpick k hk) hj)

lemma build_cv_length (pick : Nat → Nat) (i j : Nat)
    (sp : List (List (List Nat))) (sizes : List Nat)
    (hsz : sp.length = sizes.length)
    (hind : ∀ k, k < sp.length → ∀ ind ∈ sp.getD k [], ind.length = sizes.getD k 0)
    (hpick : ∀ k, k < sp.length → pick k < (sp.getD k []).length)
    (hj : j < (sp.getD i []).length) :
    (build_context_vector (get_collaborators pick i j sp)).length = sizes.sum := by
  rw [build_context_vector, List.length_flatten,
    get_collaborators_map_length pick i j sp sizes hsz hind hpick hj]

lemma evaluate_individuals_fst_length (pickO : Nat → Nat → Nat → Nat)
    (ff : List Nat → Int) (sp : List (List (List Nat))) :
    (evaluate_individuals pickO ff sp).1.length = sp.length := by
  simp [evaluate_individuals]

lemma evaluate_individuals_snd_length (pickO : Nat → Nat → Nat → Nat)
    (ff : List Nat → Int) (sp : List (List (List Nat))) :
    (evaluate_individuals pickO ff sp).2.length = sp.length := by
  simp [evaluate_individuals]

lemma evaluate_individuals_fst_getD (pickO : Nat → Nat → Nat → Nat)
    (ff : List Nat → Int) (sp : List (List (List Nat))) (i : Nat)
    (hi : i < sp.length) :
    (evaluate_individuals pickO ff sp).1.getD i []
      = (List.range (sp.getD i []).length).map (fun j =>
          build_context_vector (get_collaborators (pickO i j) i j sp)) := by
  have hi1 : i < (evaluate_individuals pickO ff sp).1.length := by
    rw [evaluate_individuals_fst_length]; exact hi
  rw [List.getD_eq_getElem _ _ hi1, List.getD_eq_getElem sp [] hi]
  simp only [evaluate_individuals, List.getElem_map, List.getElem_enum,
    Function.comp, List.map_map]
  rfl

lemma evaluate_individuals_snd_getD (pickO : Nat → Nat → Nat → Nat)
    (ff : List Nat → Int) (sp : List (List (List Nat))) (i : Nat)
    (hi : i < sp.length) :
    (evaluate_individuals pickO ff sp).2.getD i []
      = (List.range (sp.getD i []).length).map (fun j =>
          ff (build_context_vector (get_collaborators (pickO i j) i j sp))) := by
  have hi2 : i < (evaluate_individuals pickO ff sp).2.length := by
    rw [evaluate_individuals_snd_length]; exact hi
  rw [List.getD_eq_getElem _ _ hi2, List.getD_eq_getElem sp [] hi]
  simp only [evaluate_individuals, List.getElem_map, List.getElem_enum,
    Function.comp, List.map_map]
  rfl

/-- C5: after `build_subpopulations` (abstracted as a subpopulation list whose
shapes are given by `subpop_sizes` / `subcomp_sizes`), `evaluate_individuals`
produces parallel per-subpopulation structures: both outputs have one entry
per subpopulation; `context_vectors[i]` holds `subpop_sizes[i]` rows, each a
full-length vector of `n_features = subcomp_sizes.sum` entries;
`fitness[i]` holds `subpop_sizes[i]` scalars; and entry `j` of each is,
respectively, the context vector built for individual `j` and its
fitness-function score. -/
theorem evaluate_individuals_parallel (pickO : Nat → Nat → Nat → Nat)
    (ff : List Nat → Int) (sp : List (List (List Nat))) (cs ps : List Nat)
    (_hL : sp.length = ps.length) (hcs : cs.length = sp.length)
    (hrow : ∀ k, k < sp.length → (sp.getD k []).length = ps.getD k 0)
    (hind : ∀ k, k < sp.length → ∀ ind ∈ sp.getD k [], ind.length = cs.getD k 0)
    (hpick : ∀ i, i < sp.length → ∀ j, j < (sp.getD i []).length →
      ∀ k, k < sp.length → pickO i j k < (sp.getD k []).length) :
    (evaluate_individuals pickO ff sp).1.length = sp.length ∧
    (evaluate_individuals pickO ff sp).2.length = sp.length ∧
    (∀ i, i < sp.length →
      ((evaluate_individuals pickO ff sp).1.getD i []).length = ps.getD i 0 ∧
      ((evaluate_individuals pickO ff sp).2.getD i []).length = ps.getD i 0 ∧
      (∀ row ∈ (evaluate_individuals pickO ff sp).1.getD i [],
        row.length = cs.sum) ∧
      (∀ j, j < (sp.getD i []).length →
        ((evaluate_individuals pickO ff sp).1.getD i []).getD j []
          = build_context_vector (get_collaborators (pickO i j) i j sp) ∧
        ((evaluate_individuals pickO ff sp).2.getD i []).getD j 0
          = ff (build_context_vector (get_collaborators (pickO i j) i j sp)))) := by
  refine ⟨evaluate_individuals_fst_length pickO ff sp,
          evaluate_individuals_snd_length pickO ff sp, ?_⟩
  intro i hi
  rw [evaluate_individuals_fst_getD pickO ff sp i hi,
    evaluate_individuals_snd_getD pickO ff sp i hi]
  refine ⟨by rw [List.length_map, List.length_range]; exact hrow i hi,
          by rw [List.length_map, List.length_range]; exact hrow i hi, ?_, ?_⟩
  · intro row hrowmem
    rcases List.mem_map.1 hrowmem with ⟨j, hjr, rfl⟩
    have hj : j < (sp.getD i []).length := List.mem_range.1 hjr
    exact build_cv_length (pickO i j) i j sp cs hcs.symm hind
      (fun k hk => hpick i hi j hj k hk) hj
  · intro j hj
    exact ⟨getD_map_range _ _ j hj [], getD_map_range _ _ j hj 0⟩

/-- Witness for C5 at subpopulations `[[[1,0],[0,1]],[[1,1,1]]]` with
`subcomp_sizes = [2,3]`, `subpop_sizes = [2,1]`, all draws `0`, and fitness
function summing the selected bits. -/
theorem evaluate_individuals_parallel_witness :
    (([[[1,0],[0,1]],[[1,1,1]]] : List (List (List Nat))).length
        = ([2,1] : List Nat).length) ∧
    (([2,3] : List Nat).length
        = ([[[1,0],[0,1]],[[1,1,1]]] : List (List (List Nat))).length) ∧
    (∀ k, k < ([[[1,0],[0,1]],[[1,1,1]]] : List (List (List Nat))).length →
      (([[[1,0],[0,1]],[[1,1,1]]] : List (List (List Nat))).getD k []).length
        = ([2,1] : List Nat).getD k 0) ∧
    (∀ k, k < ([[[1,0],[0,1]],[[1,1,1]]] : List (List (List Nat))).length →
      ∀ ind ∈ ([[[1,0],[0,1]],[[1,1,1]]] : List (List (List Nat))).getD k [],
        ind.length = ([2,3] : List Nat).getD k 0) ∧
    (∀ i, i < ([[[1,0],[0,1]],[[1,1,1]]] : List (List (List Nat))).length →
      ∀ j, j < (([[[1,0],[0,1]],[[1,1,1]]] : List (List (List Nat))).getD i []).length →
      ∀ k, k < ([[[1,0],[0,1]],[[1,1,1]]] : List (List (List Nat))).length →
        (fun _ _ _ => 0) i j k
          < (([[[1,0],[0,1]],[[1,1,1]]] : List (List (List Nat))).getD k []).length) ∧
    ((evaluate_individuals (fun _ _ _ => 0) (fun l => (l.sum : Int))
        [[[1,0],[0,1]],[[1,1,1]]]).1.length
      = ([[[1,0],[0,1]],[[1,1,1]]] : List (List (List Nat))).length ∧
    (evaluate_individuals (fun _ _ _ => 0) (fun l => (l.sum : Int))
        [[[1,0],[0,1]],[[1,1,1]]]).2.length
      = ([[[1,0],[0,1]],[[1,1,1]]] : List (List (List Nat))).length ∧
    (∀ i, i < ([[[1,0],[0,1]],[[1,1,1]]] : List (List (List Nat))).length →
      ((evaluate_individuals (fun _ _ _ => 0) (fun l => (l.sum : Int))
          [[[1,0],[0,1]],[[1,1,1]]]).1.getD i []).length
        = ([2,1] : List Nat).getD i 0 ∧
      ((evaluate_individuals (fun _ _ _ => 0) (fun l => (l.sum : Int))
          [[[1,0],[0,1]],[[1,1,1]]]).2.getD i []).length
        = ([2,1] : List Nat).getD i 0 ∧
      (∀ row ∈ (evaluate_individuals (fun _ _ _ => 0) (fun l => (l.sum : Int))
          [[[1,0],[0,1]],[[1,1,1]]]).1.getD i [],
        row.length = ([2,3] : List Nat).sum) ∧
      (∀ j, j < (([[[1,0],[0,1]],[[1,1,1]]] : List (List (List Nat))).getD i []).length →
        ((evaluate_individuals (fun _ _ _ => 0) (fun l => (l.sum : Int))
            [[[1,0],[0,1]],[[1,1,1]]]).1.getD i []).getD j []
          = build_context_vector
              (get_collaborators ((fun _ _ _ => 0) i j) i j [[[1,0],[0,1]],[[1,1,1]]]) ∧
        ((evaluate_individuals (fun _ _ _ => 0) (fun l => (l.sum : Int))
            [[[1,0],[0,1]],[[1,1,1]]]).2.getD i []).getD j 0
          = (fun l => (l.sum : Int)) (build_context_vector
              (get_collaborators ((fun _ _ _ => 0) i j) i j [[[1,0],[0,1]],[[1,1,1]]]))))) :=
  ⟨by decide, by decide, by decide, by decide, by decide,
   evaluate_individuals_parallel (fun _ _ _ => 0) (fun l => (l.sum : Int))
     [[[1,0],[0,1]],[[1,1,1]]] [2,3] [2,1]
     (by decide) (by decide) (by decide) (by decide) (by decide)⟩

lemma get_collaborators_congr (pick1 pick2 : Nat → Nat) (i j : Nat)
    (sp : List (List (List Nat)))
    (h : ∀ k, k < sp.length → pick1 k = pick2 k) :
    get_collaborators pick1 i j sp = get_collaborators pick2 i j sp := by
  unfold get_collaborators
  congr 1
  apply List.map_congr_left
  intro q hq
  have hq1 : q.1 < sp.length :=
    (List.getElem?_eq_some.mp (List.mem_enum_iff_getElem?.mp hq)).1
  rw [h q.1 hq1]

/-- Counterexample to C6 as stated: with the same seeded stream, a single draw
consumed by another component between the runs (offset 1 instead of 0) changes
the collaborator that `get_collaborators` selects, so the choice is not
independent of other components' consumption of randomness. -/
theorem stream_offset_dependence_cex :
    (get_collaborators_global (fun n => n) 0 0 0 [[[0]], [[0],[1]]]).1
      ≠ (get_collaborators_global (fun n => n) 1 0 0 [[[0]], [[0],[1]]]).1 := by
  decide

/-- C6 (amended): `SingleRandomCollaboration.__init__` seeds the process-global
`random` stream (`random.seed(seed)`), not a dedicated one; collaborator
selection reads that shared stream at the caller's current offset, so for a
fixed seed the choices are reproducible across two runs exactly when the
offsets agree — i.e. when every other component's consumption of the shared
stream is identical: two streams that agree on the window the call consumes
yield identical collaborators and identical final offsets. -/
theorem global_stream_reproducibility (s1 s2 : Nat → Nat) (p i j : Nat)
    (sp : List (List (List Nat)))
    (h : ∀ k, k < sp.length → s1 (p + k) = s2 (p + k)) :
    get_collaborators_global s1 p i j sp = get_collaborators_global s2 p i j sp := by
  unfold get_collaborators_global
  have hc := get_collaborators_congr
    (fun k => s1 (p + k) % (sp.getD k []).length)
    (fun k => s2 (p + k) % (sp.getD k []).length) i j sp
    (fun k hk => by simp only []; rw [h k hk])
  rw [hc]

/-- Witness for C6 (amended) at two streams that differ far from the consumed
window but agree on it. -/
theorem global_stream_reproducibility_witness :
    (∀ k, k < ([[[0]], [[0],[1]]] : List (List (List Nat))).length →
      (fun n => n) (0 + k) = (fun n => if n < 5 then n else 99) (0 + k)) ∧
    get_collaborators_global (fun n => n) 0 0 0 [[[0]], [[0],[1]]]
      = get_collaborators_global (fun n => if n < 5 then n else 99) 0 0 0
          [[[0]], [[0],[1]]] :=
  ⟨by decide,
   global_stream_reproducibility (fun n => n) (fun n => if n < 5 then n else 99)
     0 0 0 [[[0]], [[0],[1]]] (by decide)⟩

/-- C7: a subpopulation of size 1 always contributes its sole individual as
the representative chosen by `get_collaborators` (whether it is the subject's
own subpopulation or a collaborator drawn at random, since any draw modulo 1
is index 0), and the index every random-selection branch uses is in range for
every subpopulation of size at least 1. -/
theorem singleton_subpop_representative (stream : Nat → Nat) (p i j k : Nat)
    (sp : List (List (List Nat))) (hk : k < sp.length)
    (h1 : (sp.getD k []).length = 1) (hj : j < (sp.getD i []).length) :
    (get_collaborators_global stream p i j sp).1.getD k []
      = (sp.getD k []).getD 0 [] ∧
    (∀ m, m < sp.length → 0 < (sp.getD m []).length →
      stream (p + m) % (sp.getD m []).length < (sp.getD m []).length) := by
  constructor
  · have hfst : (get_collaborators_global stream p i j sp).1
        = get_collaborators (fun q => stream (p + q) % (sp.getD q []).length) i j sp := rfl
    rw [hfst, getD_get_collaborators _ _ _ _ _ hk]
    by_cases h : i = k
    · rw [if_pos h]
      subst h
      have hj0 : j = 0 := by
        rw [h1] at hj
        omega
      rw [hj0]
    · rw [if_neg h, h1, Nat.mod_one]
  · intro m _ hpos
    exact Nat.mod_lt _ hpos

/-- Witness for C7 at a size-1 subpopulation `[[1,0]]` in slot 0, subject
individual `(i,j) = (1,0)`. -/
theorem singleton_subpop_representative_witness :
    (0 < ([[[1,0]], [[0,1],[1,1]]] : List (List (List Nat))).length) ∧
    ((([[[1,0]], [[0,1],[1,1]]] : List (List (List Nat))).getD 0 []).length = 1) ∧
    (0 < (([[[1,0]], [[0,1],[1,1]]] : List (List (List Nat))).getD 1 []).length) ∧
    ((get_collaborators_global (fun n => n) 0 1 0 [[[1,0]], [[0,1],[1,1]]]).1.getD 0 []
      = (([[[1,0]], [[0,1],[1,1]]] : List (List (List Nat))).getD 0 []).getD 0 [] ∧
    (∀ m, m < ([[[1,0]], [[0,1],[1,1]]] : List (List (List Nat))).length →
      0 < (([[[1,0]], [[0,1],[1,1]]] : List (List (List Nat))).getD m []).length →
      (fun n => n) (0 + m) % (([[[1,0]], [[0,1],[1,1]]] : List (List (List Nat))).getD m []).length
        < (([[[1,0]], [[0,1],[1,1]]] : List (List (List Nat))).getD m []).length)) :=
  ⟨by decide, by decide, by decide,
   singleton_subpop_representative (fun n => n) 0 1 0 0 [[[1,0]], [[0,1],[1,1]]]
     (by decide) (by decide) (by decide)⟩

lemma lookup_ok_iff_key_mem (l : List (String × String)) (a : String) :
    (∃ v, l.lookup a = some v) ↔ a ∈ l.map Prod.fst := by
  induction l with
  | nil => simp [List.lookup]
  | cons q l ih =>
      obtain ⟨k, v⟩ := q
      by_cases h : a = k
      · subst h
        simp [List.lookup]
      · have hbeq : (a == k) = false := beq_eq_false_iff_ne.mpr h
        simp only [List.lookup, hbeq, List.map_cons, List.mem_cons]
        rw [ih]
        constructor
        · intro hmem
          exact Or.inr hmem
        · rintro (hak | hmem)
          · exact absurd hak h
          · exact hmem

/-- C8: `DataLoader.load` succeeds (proceeds to read the CSV at the stored
path) exactly for dataset names that are keys of the known-dataset table; any
other name yields the `AssertionError` before any data is read. -/
theorem dataset_load_known_names (name : String) :
    (∃ path, DataLoader_load name = Except.ok path) ↔
      name ∈ datasets.map Prod.fst := by
  rw [← lookup_ok_iff_key_mem datasets name]
  unfold DataLoader_load
  rcases hcase : datasets.lookup name with _ | path
  · simp only [hcase]
    constructor
    · rintro ⟨p, hp⟩
      cases hp
    · rintro ⟨v, hv⟩
      cases hv
  · simp only [hcase]
    exact ⟨fun _ => ⟨path, rfl⟩, fun _ => ⟨path, rfl⟩⟩

/-- C10: `_get_global_best` returns a copy, not an alias: in the heap model
the returned reference is fresh (distinct from every reference held by
`current_best`), its contents equal the stored best context vector, the call
leaves `current_best` and every array it references unchanged, and writing
through the returned reference afterwards still leaves every
`current_best` array unchanged. -/
theorem global_best_returns_copy (st : HeapCCEAState)
    (hwf : ∀ q ∈ st.current_best, q.1 < st.store.next) :
    (CCEA_get_global_best_heap st).2.current_best = st.current_best ∧
    (∀ q ∈ st.current_best, (CCEA_get_global_best_heap st).1.1 ≠ q.1) ∧
    (∀ q ∈ st.current_best,
      (CCEA_get_global_best_heap st).2.store.arrays q.1 = st.store.arrays q.1) ∧
    (∀ v : List Int, ∀ q ∈ st.current_best,
      (((CCEA_get_global_best_heap st).2.store.write
          (CCEA_get_global_best_heap st).1.1 v).arrays) q.1
        = st.store.arrays q.1) ∧
    (CCEA_get_global_best_heap st).2.store.arrays (CCEA_get_global_best_heap st).1.1
      = st.store.arrays
          ((st.current_best.getD (np_argmax (st.current_best.map Prod.snd)) (0, 0)).1) := by
  have hfresh : ∀ q ∈ st.current_best, st.store.next ≠ q.1 :=
    fun q hq => (Nat.ne_of_lt (hwf q hq)).symm
  refine ⟨rfl, ?_, ?_, ?_, ?_⟩
  · intro q hq
    exact hfresh q hq
  · intro q hq
    simp only [CCEA_get_global_best_heap, Store.alloc]
    rw [if_neg (fun h => hfresh q hq h.symm)]
  · intro v q hq
    simp only [CCEA_get_global_best_heap, Store.alloc, Store.write]
    rw [if_neg (fun h => hfresh q hq h.symm), if_neg (fun h => hfresh q hq h.symm)]
  · simp [CCEA_get_global_best_heap, Store.alloc]

/-- Witness for C10 at a two-entry `current_best` whose context vectors live
at references 0 and 1 of a three-slot store. -/
theorem global_best_returns_copy_witness :
    (∀ q ∈ (⟨⟨fun k => if k = 0 then [1, 0] else if k = 1 then [0, 1] else [], 2⟩,
        [(0, 5), (1, 7)]⟩ : HeapCCEAState).current_best,
      q.1 < (⟨⟨fun k => if k = 0 then [1, 0] else if k = 1 then [0, 1] else [], 2⟩,
        [(0, 5), (1, 7)]⟩ : HeapCCEAState).store.next) ∧
    ((CCEA_get_global_best_heap
        (⟨⟨fun k => if k = 0 then [1, 0] else if k = 1 then [0, 1] else [], 2⟩,
          [(0, 5), (1, 7)]⟩ : HeapCCEAState)).2.current_best
      = (⟨⟨fun k => if k = 0 then [1, 0] else if k = 1 then [0, 1] else [], 2⟩,
          [(0, 5), (1, 7)]⟩ : HeapCCEAState).current_best ∧
    (∀ q ∈ (⟨⟨fun k => if k = 0 then [1, 0] else if k = 1 then [0, 1] else [], 2⟩,
        [(0, 5), (1, 7)]⟩ : HeapCCEAState).current_best,
      (CCEA_get_global_best_heap
        (⟨⟨fun k => if k = 0 then [1, 0] else if k = 1 then [0, 1] else [], 2⟩,
          [(0, 5), (1, 7)]⟩ : HeapCCEAState)).1.1 ≠ q.1) ∧
    (∀ q ∈ (⟨⟨fun k => if k = 0 then [1, 0] else if k = 1 then [0, 1] else [], 2⟩,
        [(0, 5), (1, 7)]⟩ : HeapCCEAState).current_best,
      (CCEA_get_global_best_heap
        (⟨⟨fun k => if k = 0 then [1, 0] else if k = 1 then [0, 1] else [], 2⟩,
          [(0, 5), (1, 7)]⟩ : HeapCCEAState)).2.store.arrays q.1
        = (⟨⟨fun k => if k = 0 then [1, 0] else if k = 1 then [0, 1] else [], 2⟩,
            [(0, 5), (1, 7)]⟩ : HeapCCEAState).store.arrays q.1) ∧
    (∀ v : List Int, ∀ q ∈ (⟨⟨fun k => if k = 0 then [1, 0] else if k = 1 then [0, 1] else [], 2⟩,
        [(0, 5), (1, 7)]⟩ : HeapCCEAState).current_best,
      (((CCEA_get_global_best_heap
          (⟨⟨fun k => if k = 0 then [1, 0] else if k = 1 then [0, 1] else [], 2⟩,
            [(0, 5), (1, 7)]⟩ : HeapCCEAState)).2.store.write
          (CCEA_get_global_best_heap
            (⟨⟨fun k => if k = 0 then [1, 0] else if k = 1 then [0, 1] else [], 2⟩,
              [(0, 5), (1, 7)]⟩ : HeapCCEAState)).1.1 v).arrays) q.1
        = (⟨⟨fun k => if k = 0 then [1, 0] else if k = 1 then [0, 1] else [], 2⟩,
            [(0, 5), (1, 7)]⟩ : HeapCCEAState).store.arrays q.1) ∧
    (CCEA_get_global_best_heap
        (⟨⟨fun k => if k = 0 then [1, 0] else if k = 1 then [0, 1] else [], 2⟩,
          [(0, 5), (1, 7)]⟩ : HeapCCEAState)).2.store.arrays
        (CCEA_get_global_best_heap
          (⟨⟨fun k => if k = 0 then [1, 0] else if k = 1 then [0, 1] else [], 2⟩,
            [(0, 5), (1, 7)]⟩ : HeapCCEAState)).1.1
      = (⟨⟨fun k => if k = 0 then [1, 0] else if k = 1 then [0, 1] else [], 2⟩,
          [(0, 5), (1, 7)]⟩ : HeapCCEAState).store.arrays
          (((⟨⟨fun k => if k = 0 then [1, 0] else if k = 1 then [0, 1] else [], 2⟩,
              [(0, 5), (1, 7)]⟩ : HeapCCEAState).current_best.getD
            (np_argmax ((⟨⟨fun k => if k = 0 then [1, 0] else if k = 1 then [0, 1] else [], 2⟩,
              [(0, 5), (1, 7)]⟩ : HeapCCEAState).current_best.map Prod.snd)) (0, 0)).1)) :=
  ⟨by decide,
   global_best_returns_copy
     (⟨⟨fun k => if k = 0 then [1, 0] else if k = 1 then [0, 1] else [], 2⟩,
       [(0, 5), (1, 7)]⟩ : HeapCCEAState) (by decide)⟩

end CCEAs
